import Mathlib

/-!
# Boot-button hold detection of the firmware (`ButtonHandler.cpp`)

A shallow embedding of `checkBootButton` and of the globals it touches.

* `unsigned long` is 32 bits wide on the target; the values returned by
  `millis()` are natural numbers below `2^32`, and the only arithmetic on them
  (`millis() - bootButtonPressTime`) is performed modulo `2^32` (`ulSub`).
* The calls `checkBootButton` makes to its collaborators (`clearLCD`,
  `printLCD`, `wifiManager.resetSettings`, `delay`, `ESP.restart`,
  `updateLCD`) are recorded, in program order, as a list of `Effect`s.
* `ESP.restart()` does not return: an outcome carries a `restarted` flag and a
  sequence of polls (`run`) stops at the first poll that restarts.
* The body of `updateLCD` is not part of `ButtonHandler.cpp`; `checkBootButton`
  takes it as a parameter acting on the pair
  `(currentState, lastDisplayedState)`.
-/

namespace ButtonHandler

/-- WiFi state, `enum WifiState` of `WiFiState.h`. -/
inductive WifiState where
  | WIFI_CONNECTING
  | WIFI_CONFIG_MODE
  | WIFI_CONNECTED
  | WIFI_ERROR
  deriving DecidableEq, Repr

/-- Level returned by `digitalRead`. -/
inductive PinLevel where
  | LOW
  | HIGH
  deriving DecidableEq, Repr

/-- Colour constant `TFT_YELLOW` of the display library (RGB565). -/
def TFT_YELLOW : Nat := 0xFFE0

/-- Colour constant `TFT_CYAN` of the display library (RGB565). -/
def TFT_CYAN : Nat := 0x07FF

/-- Calls made by `checkBootButton` to its collaborators. -/
inductive Effect where
  | clearLCD
  | printLCD (x y : Int) (text : String) (color : Nat) (size : Nat)
  | resetSettings
  | delay (ms : Nat)
  | restart
  | updateLCD
  deriving DecidableEq, Repr

/-- The globals read or written by `checkBootButton`. -/
structure Globals where
  bootButtonPressed : Bool
  bootButtonPressTime : Nat
  currentState : WifiState
  lastDisplayedState : WifiState
  deriving DecidableEq, Repr

/-- What one call of `checkBootButton` observes: the level of pin 0 and the
values the two `millis()` calls return (`millisAtPress` is the call that records
the press time, made only on a press edge; `millisAtCheck` is the call of the
three-second test, made whenever the pin reads `LOW`). -/
structure PollIn where
  digitalRead0 : PinLevel
  millisAtPress : Nat
  millisAtCheck : Nat
  deriving DecidableEq, Repr

/-- Result of one call of `checkBootButton`. -/
structure Outcome where
  globals : Globals
  effects : List Effect
  restarted : Bool
  deriving DecidableEq, Repr

/-- Number of values of `unsigned long` (32 bits). -/
def UL_MOD : Nat := 4294967296

/-- Subtraction of `unsigned long` values: modulo `2^32`. -/
def ulSub (a b : Nat) : Nat := (a % UL_MOD + (UL_MOD - b % UL_MOD)) % UL_MOD

/-- The calls of the press-edge branch that draw the prompt. -/
def promptEffects : List Effect :=
  [Effect.clearLCD,
   Effect.printLCD 10 100 "Hold for 3 seconds" TFT_YELLOW 2,
   Effect.printLCD 10 125 "to reset WiFi" TFT_YELLOW 2]

/-- The calls of the three-second branch. -/
def resetEffects : List Effect :=
  [Effect.clearLCD,
   Effect.printLCD 10 100 "Resetting WiFi..." TFT_CYAN 2,
   Effect.resetSettings,
   Effect.delay 1000,
   Effect.restart]

/-- The press-edge block `if (!bootButtonPressed) { ... }`. -/
def pressEdge (g : Globals) (i : PollIn) : Globals × List Effect :=
  if !g.bootButtonPressed then
    ({ g with bootButtonPressed := true
              bootButtonPressTime := i.millisAtPress
              lastDisplayedState := WifiState.WIFI_ERROR },
     promptEffects)
  else (g, [])

/-- One call of `checkBootButton()`. -/
def checkBootButton (updateLCD : WifiState → WifiState → WifiState)
    (g : Globals) (i : PollIn) : Outcome :=
  if i.digitalRead0 = PinLevel.LOW then
    let (g1, e1) := pressEdge g i
    if ulSub i.millisAtCheck g1.bootButtonPressTime ≥ 3000 then
      { globals := g1, effects := e1 ++ resetEffects, restarted := true }
    else
      { globals := g1, effects := e1, restarted := false }
  else
    if g.bootButtonPressed then
      let g1 := { g with bootButtonPressed := false
                         lastDisplayedState := WifiState.WIFI_ERROR }
      { globals := { g1 with lastDisplayedState :=
                      updateLCD g1.currentState g1.lastDisplayedState },
        effects := [Effect.updateLCD],
        restarted := false }
    else
      { globals := g, effects := [], restarted := false }

/-- Result of a sequence of polls: the globals after the last executed poll, the
effects of each executed poll, and whether the device restarted. -/
structure RunResult where
  globals : Globals
  trace : List (List Effect)
  restarted : Bool
  deriving DecidableEq, Repr

/-- The main loop polling `checkBootButton` once per iteration; a restart ends
the sequence. -/
def run (updateLCD : WifiState → WifiState → WifiState) (g : Globals) :
    List PollIn → RunResult
  | [] => { globals := g, trace := [], restarted := false }
  | i :: rest =>
    let o := checkBootButton updateLCD g i
    if o.restarted then
      { globals := o.globals, trace := [o.effects], restarted := true }
    else
      let r := run updateLCD o.globals rest
      { globals := r.globals, trace := o.effects :: r.trace, restarted := r.restarted }

/-- Modelled from the spec: the body of `updateLCD` (`LCDDisplay.cpp` is
missing). Contract `reconcile(current, lastDisplayed) -> (didRedraw,
newLastDisplayed)`: when the two are equal nothing is drawn, otherwise the
screen is redrawn and `lastDisplayed` becomes `current`. -/
def reconcile (current lastDisplayed : WifiState) : Bool × WifiState :=
  if current = lastDisplayed then (false, lastDisplayed) else (true, current)

/-- Modelled from the spec: the effect of `updateLCD` on `lastDisplayedState`,
the second component of `reconcile`. -/
def updateLCD (current lastDisplayed : WifiState) : WifiState :=
  (reconcile current lastDisplayed).2

/-- The final unbroken run of polls at which the pin read `LOW`. -/
def currentRun (ps : List PollIn) : List PollIn :=
  ps.rtakeWhile (fun i => decide (i.digitalRead0 = PinLevel.LOW))

/-! ## One poll -/

theorem ulSub_lt (a b : Nat) : ulSub a b < 4294967296 := by
  unfold ulSub UL_MOD
  omega

theorem ulSub_of_le {a b : Nat} (hab : b ≤ a) (ha : a < 4294967296) : ulSub a b = a - b := by
  unfold ulSub UL_MOD
  omega

theorem ulSub_add_mod (t0 : Nat) {d : Nat} (hd : d < 4294967296) :
    ulSub ((t0 + d) % 4294967296) t0 = d := by
  unfold ulSub UL_MOD
  omega

theorem poll_high_idle (upd : WifiState → WifiState → WifiState) (g : Globals) (i : PollIn)
    (hhigh : i.digitalRead0 ≠ PinLevel.LOW) (hidle : g.bootButtonPressed = false) :
    checkBootButton upd g i = { globals := g, effects := [], restarted := false } := by
  simp [checkBootButton, hhigh, hidle]

theorem poll_high_pressed (upd : WifiState → WifiState → WifiState) (g : Globals) (i : PollIn)
    (hhigh : i.digitalRead0 ≠ PinLevel.LOW) (hp : g.bootButtonPressed = true) :
    checkBootButton upd g i =
      { globals := { g with bootButtonPressed := false
                            lastDisplayedState := upd g.currentState WifiState.WIFI_ERROR },
        effects := [Effect.updateLCD], restarted := false } := by
  simp [checkBootButton, hhigh, hp]

theorem poll_low_pressed (upd : WifiState → WifiState → WifiState) (g : Globals) (i : PollIn)
    (hlow : i.digitalRead0 = PinLevel.LOW) (hp : g.bootButtonPressed = true) :
    checkBootButton upd g i =
      if 3000 ≤ ulSub i.millisAtCheck g.bootButtonPressTime then
        { globals := g, effects := resetEffects, restarted := true }
      else { globals := g, effects := [], restarted := false } := by
  simp [checkBootButton, pressEdge, hlow, hp]

theorem poll_low_idle (upd : WifiState → WifiState → WifiState) (g : Globals) (i : PollIn)
    (hlow : i.digitalRead0 = PinLevel.LOW) (hidle : g.bootButtonPressed = false) :
    checkBootButton upd g i =
      if 3000 ≤ ulSub i.millisAtCheck i.millisAtPress then
        { globals := { g with bootButtonPressed := true
                              bootButtonPressTime := i.millisAtPress
                              lastDisplayedState := WifiState.WIFI_ERROR },
          effects := promptEffects ++ resetEffects, restarted := true }
      else
        { globals := { g with bootButtonPressed := true
                              bootButtonPressTime := i.millisAtPress
                              lastDisplayedState := WifiState.WIFI_ERROR },
          effects := promptEffects, restarted := false } := by
  simp [checkBootButton, pressEdge, hlow, hidle]

/-! ## Single-poll contracts -/

/-- C5: in state PRESSED_WAITING, a poll with the pin active and an elapsed time
of at least 3000 ms emits exactly: `clearLCD`, `printLCD "Resetting WiFi..."`,
`wifiManager.resetSettings()`, `delay(1000)`, `ESP.restart()`, in this order and
with no other call (in particular no `updateLCD`) in between, and does not
return to the loop. -/
theorem reset_transition_effect_order (upd : WifiState → WifiState → WifiState)
    (g : Globals) (i : PollIn)
    (hp : g.bootButtonPressed = true)
    (hlow : i.digitalRead0 = PinLevel.LOW)
    (hheld : 3000 ≤ ulSub i.millisAtCheck g.bootButtonPressTime) :
    (checkBootButton upd g i).effects =
        [Effect.clearLCD,
         Effect.printLCD 10 100 "Resetting WiFi..." TFT_CYAN 2,
         Effect.resetSettings,
         Effect.delay 1000,
         Effect.restart] ∧
      (checkBootButton upd g i).restarted = true := by
  rw [poll_low_pressed upd g i hlow hp, if_pos hheld]
  exact ⟨rfl, rfl⟩

theorem reset_transition_effect_order_witness :
    (checkBootButton updateLCD
        { bootButtonPressed := true, bootButtonPressTime := 200,
          currentState := WifiState.WIFI_CONNECTED,
          lastDisplayedState := WifiState.WIFI_ERROR }
        { digitalRead0 := PinLevel.LOW, millisAtPress := 3200, millisAtCheck := 3200 }).effects =
        [Effect.clearLCD,
         Effect.printLCD 10 100 "Resetting WiFi..." TFT_CYAN 2,
         Effect.resetSettings,
         Effect.delay 1000,
         Effect.restart] ∧
      (checkBootButton updateLCD
        { bootButtonPressed := true, bootButtonPressTime := 200,
          currentState := WifiState.WIFI_CONNECTED,
          lastDisplayedState := WifiState.WIFI_ERROR }
        { digitalRead0 := PinLevel.LOW, millisAtPress := 3200,
          millisAtCheck := 3200 }).restarted = true :=
  reset_transition_effect_order updateLCD _ _ rfl rfl (by decide)

/-- The press edge for every state (IDLE, pin active, `millis()` returning `t`
when the press is recorded): `checkBootButton` sets `bootButtonPressed`, stores
`bootButtonPressTime = t`, emits `clearLCD` followed by the two prompt lines,
overwrites `lastDisplayedState` with `WIFI_ERROR` and leaves `currentState`
alone; when the clock advances by less than 3000 ms inside the call, these are
the only calls: no `resetSettings`, no `restart`. -/
theorem press_edge_transition (upd : WifiState → WifiState → WifiState)
    (g : Globals) (i : PollIn)
    (hidle : g.bootButtonPressed = false)
    (hlow : i.digitalRead0 = PinLevel.LOW) :
    (checkBootButton upd g i).globals.bootButtonPressed = true ∧
      (checkBootButton upd g i).globals.bootButtonPressTime = i.millisAtPress ∧
      (checkBootButton upd g i).globals.lastDisplayedState = WifiState.WIFI_ERROR ∧
      (checkBootButton upd g i).globals.currentState = g.currentState ∧
      (∃ tail, (checkBootButton upd g i).effects =
        [Effect.clearLCD,
         Effect.printLCD 10 100 "Hold for 3 seconds" TFT_YELLOW 2,
         Effect.printLCD 10 125 "to reset WiFi" TFT_YELLOW 2] ++ tail) ∧
      (ulSub i.millisAtCheck i.millisAtPress < 3000 →
        (checkBootButton upd g i).effects =
          [Effect.clearLCD,
           Effect.printLCD 10 100 "Hold for 3 seconds" TFT_YELLOW 2,
           Effect.printLCD 10 125 "to reset WiFi" TFT_YELLOW 2] ∧
        Effect.resetSettings ∉ (checkBootButton upd g i).effects ∧
        Effect.restart ∉ (checkBootButton upd g i).effects ∧
        (checkBootButton upd g i).restarted = false) := by
  rw [poll_low_idle upd g i hlow hidle]
  by_cases h : 3000 ≤ ulSub i.millisAtCheck i.millisAtPress
  · rw [if_pos h]
    refine ⟨rfl, rfl, rfl, rfl, ⟨resetEffects, rfl⟩, fun hlt => ?_⟩
    omega
  · rw [if_neg h]
    refine ⟨rfl, rfl, rfl, rfl, ⟨[], rfl⟩, fun _ => ⟨rfl, ?_, ?_, rfl⟩⟩ <;>
      simp [promptEffects]

theorem press_edge_transition_witness :
    (checkBootButton updateLCD
        { bootButtonPressed := false, bootButtonPressTime := 0,
          currentState := WifiState.WIFI_CONNECTED,
          lastDisplayedState := WifiState.WIFI_CONNECTED }
        { digitalRead0 := PinLevel.LOW, millisAtPress := 5000,
          millisAtCheck := 5002 }).globals =
      { bootButtonPressed := true, bootButtonPressTime := 5000,
        currentState := WifiState.WIFI_CONNECTED,
        lastDisplayedState := WifiState.WIFI_ERROR } ∧
    (checkBootButton updateLCD
        { bootButtonPressed := false, bootButtonPressTime := 0,
          currentState := WifiState.WIFI_CONNECTED,
          lastDisplayedState := WifiState.WIFI_CONNECTED }
        { digitalRead0 := PinLevel.LOW, millisAtPress := 5000,
          millisAtCheck := 5002 }).restarted = false := by
  have h := press_edge_transition updateLCD
    { bootButtonPressed := false, bootButtonPressTime := 0,
      currentState := WifiState.WIFI_CONNECTED,
      lastDisplayedState := WifiState.WIFI_CONNECTED }
    { digitalRead0 := PinLevel.LOW, millisAtPress := 5000, millisAtCheck := 5002 } rfl rfl
  exact ⟨by decide, (h.2.2.2.2.2 (by decide)).2.2.2⟩

/-- C8: two IDLE states that differ only in `bootButtonPressTime` are
indistinguishable by one poll: for every pin level and clock readings the
emitted effects, the restart flag, `bootButtonPressed`, `lastDisplayedState`
and `currentState` agree, and when the pin is active the resulting `bootButtonPressTime` agrees as
well (the stale value is overwritten before it is read). -/
theorem stale_press_time_not_observable (upd : WifiState → WifiState → WifiState)
    (g1 g2 : Globals) (i : PollIn)
    (h1 : g1.bootButtonPressed = false) (h2 : g2.bootButtonPressed = false)
    (hcur : g1.currentState = g2.currentState)
    (hlast : g1.lastDisplayedState = g2.lastDisplayedState) :
    (checkBootButton upd g1 i).effects = (checkBootButton upd g2 i).effects ∧
      (checkBootButton upd g1 i).restarted = (checkBootButton upd g2 i).restarted ∧
      (checkBootButton upd g1 i).globals.bootButtonPressed =
        (checkBootButton upd g2 i).globals.bootButtonPressed ∧
      (checkBootButton upd g1 i).globals.lastDisplayedState =
        (checkBootButton upd g2 i).globals.lastDisplayedState ∧
      (checkBootButton upd g1 i).globals.currentState =
        (checkBootButton upd g2 i).globals.currentState ∧
      (i.digitalRead0 = PinLevel.LOW →
        (checkBootButton upd g1 i).globals.bootButtonPressTime =
          (checkBootButton upd g2 i).globals.bootButtonPressTime) := by
  by_cases hlow : i.digitalRead0 = PinLevel.LOW
  · rw [poll_low_idle upd g1 i hlow h1, poll_low_idle upd g2 i hlow h2]
    by_cases h : 3000 ≤ ulSub i.millisAtCheck i.millisAtPress
    · simp [h, hcur]
    · simp [h, hcur]
  · rw [poll_high_idle upd g1 i hlow h1, poll_high_idle upd g2 i hlow h2]
    exact ⟨rfl, rfl, h1.trans h2.symm, hlast, hcur, fun h => absurd h hlow⟩

theorem stale_press_time_not_observable_witness :
    (checkBootButton updateLCD
        { bootButtonPressed := false, bootButtonPressTime := 0,
          currentState := WifiState.WIFI_CONFIG_MODE,
          lastDisplayedState := WifiState.WIFI_CONFIG_MODE }
        { digitalRead0 := PinLevel.LOW, millisAtPress := 90, millisAtCheck := 91 }).effects =
      (checkBootButton updateLCD
        { bootButtonPressed := false, bootButtonPressTime := 4000000000,
          currentState := WifiState.WIFI_CONFIG_MODE,
          lastDisplayedState := WifiState.WIFI_CONFIG_MODE }
        { digitalRead0 := PinLevel.LOW, millisAtPress := 90, millisAtCheck := 91 }).effects :=
  (stale_press_time_not_observable updateLCD
    { bootButtonPressed := false, bootButtonPressTime := 0,
      currentState := WifiState.WIFI_CONFIG_MODE,
      lastDisplayedState := WifiState.WIFI_CONFIG_MODE }
    { bootButtonPressed := false, bootButtonPressTime := 4000000000,
      currentState := WifiState.WIFI_CONFIG_MODE,
      lastDisplayedState := WifiState.WIFI_CONFIG_MODE }
    { digitalRead0 := PinLevel.LOW, millisAtPress := 90, millisAtCheck := 91 }
    rfl rfl rfl rfl).1

/-- C10: hold detection across wraparound of the 32-bit millisecond counter.
With the press recorded at counter value `t0` and a true hold duration
`d < 2^32` ms, a poll with the pin active at counter value `(t0 + d) mod 2^32`
calls `resetSettings` and restarts iff `d >= 3000`; this covers both a poll in
PRESSED_WAITING and the press-edge poll itself. -/
theorem hold_detection_across_wraparound (upd : WifiState → WifiState → WifiState)
    (g : Globals) (i : PollIn) (t0 d : Nat)
    (hd : d < 4294967296)
    (hlow : i.digitalRead0 = PinLevel.LOW)
    (hnow : i.millisAtCheck = (t0 + d) % 4294967296)
    (hstart : (g.bootButtonPressed = true ∧ g.bootButtonPressTime = t0) ∨
      (g.bootButtonPressed = false ∧ i.millisAtPress = t0)) :
    ((checkBootButton upd g i).restarted = true ↔ 3000 ≤ d) ∧
      (Effect.resetSettings ∈ (checkBootButton upd g i).effects ↔ 3000 ≤ d) ∧
      (Effect.restart ∈ (checkBootButton upd g i).effects ↔ 3000 ≤ d) := by
  have hel : ulSub i.millisAtCheck t0 = d := by rw [hnow]; exact ulSub_add_mod t0 hd
  rcases hstart with ⟨hp, ht⟩ | ⟨hidle, ht⟩
  · rw [poll_low_pressed upd g i hlow hp, ht, hel]
    by_cases h : 3000 ≤ d
    · simp [h, resetEffects]
    · simp [h]
  · rw [poll_low_idle upd g i hlow hidle, ht, hel]
    by_cases h : 3000 ≤ d
    · simp [h, resetEffects]
    · simp [h, promptEffects]

theorem hold_detection_across_wraparound_witness :
    (checkBootButton updateLCD
        { bootButtonPressed := true, bootButtonPressTime := 4294966296,
          currentState := WifiState.WIFI_CONNECTED,
          lastDisplayedState := WifiState.WIFI_ERROR }
        { digitalRead0 := PinLevel.LOW, millisAtPress := 0,
          millisAtCheck := 2000 }).restarted = true ↔ 3000 ≤ 3000 :=
  (hold_detection_across_wraparound updateLCD
    { bootButtonPressed := true, bootButtonPressTime := 4294966296,
      currentState := WifiState.WIFI_CONNECTED,
      lastDisplayedState := WifiState.WIFI_ERROR }
    { digitalRead0 := PinLevel.LOW, millisAtPress := 0, millisAtCheck := 2000 }
    4294966296 3000 (by decide) rfl (by decide) (Or.inl ⟨rfl, rfl⟩)).1

/-! ## The invalidation value and the release edge -/

/-- After a press edge `lastDisplayedState` differs from `currentState` exactly
when `currentState` is not `WIFI_ERROR`. -/
theorem press_edge_invalidates_iff (upd : WifiState → WifiState → WifiState)
    (g : Globals) (i : PollIn)
    (hidle : g.bootButtonPressed = false)
    (hlow : i.digitalRead0 = PinLevel.LOW) :
    (checkBootButton upd g i).globals.lastDisplayedState ≠
        (checkBootButton upd g i).globals.currentState ↔
      g.currentState ≠ WifiState.WIFI_ERROR := by
  rw [poll_low_idle upd g i hlow hidle]
  by_cases h : 3000 ≤ ulSub i.millisAtCheck i.millisAtPress
  · rw [if_pos h]
    exact ⟨fun hne e => hne e.symm, fun hne e => hne e.symm⟩
  · rw [if_neg h]
    exact ⟨fun hne e => hne e.symm, fun hne e => hne e.symm⟩

/-- The release edge for an arbitrary body of `updateLCD`: back to IDLE, press
time untouched, `updateLCD` the only call, invoked on
`lastDisplayedState = WIFI_ERROR`; a further poll with the pin still inactive
changes nothing and emits nothing. -/
theorem release_transition (upd : WifiState → WifiState → WifiState)
    (g : Globals) (i j : PollIn)
    (hp : g.bootButtonPressed = true)
    (hi : i.digitalRead0 ≠ PinLevel.LOW) (hj : j.digitalRead0 ≠ PinLevel.LOW) :
    (checkBootButton upd g i).globals.bootButtonPressed = false ∧
      (checkBootButton upd g i).globals.bootButtonPressTime = g.bootButtonPressTime ∧
      (checkBootButton upd g i).globals.currentState = g.currentState ∧
      (checkBootButton upd g i).globals.lastDisplayedState =
        upd g.currentState WifiState.WIFI_ERROR ∧
      (checkBootButton upd g i).effects = [Effect.updateLCD] ∧
      (checkBootButton upd g i).restarted = false ∧
      checkBootButton upd (checkBootButton upd g i).globals j =
        { globals := (checkBootButton upd g i).globals, effects := [], restarted := false } := by
  refine ⟨?_, ?_, ?_, ?_, ?_, ?_, ?_⟩
  all_goals first
    | (rw [poll_high_pressed upd g i hi hp]; done)
    | (rw [poll_high_pressed upd g i hi hp]; exact poll_high_idle upd _ j hj rfl)

/-- Under the display contract of the spec, the `updateLCD` call of the release
edge redraws exactly when `currentState` is not `WIFI_ERROR`. -/
theorem release_redraws_iff (g : Globals) :
    (reconcile g.currentState WifiState.WIFI_ERROR).1 = true ↔
      g.currentState ≠ WifiState.WIFI_ERROR := by
  unfold reconcile
  by_cases h : g.currentState = WifiState.WIFI_ERROR <;> simp [h]

/-- C3, evaluated at `currentState = WIFI_ERROR`: the value written to
`lastDisplayedState` on the press edge is `WIFI_ERROR`, equal to `currentState`;
on the release edge `updateLCD` is entered with
`(currentState, lastDisplayedState) = (WIFI_ERROR, WIFI_ERROR)`, whatever its
body, so with a body that leaves `lastDisplayedState` alone the two are equal
after the poll as well. -/
theorem invalidation_value_coincides_in_error_state :
    (∀ upd : WifiState → WifiState → WifiState,
      (checkBootButton upd
        { bootButtonPressed := false, bootButtonPressTime := 0,
          currentState := WifiState.WIFI_ERROR,
          lastDisplayedState := WifiState.WIFI_ERROR }
        { digitalRead0 := PinLevel.LOW, millisAtPress := 100,
          millisAtCheck := 100 }).globals =
        { bootButtonPressed := true, bootButtonPressTime := 100,
          currentState := WifiState.WIFI_ERROR,
          lastDisplayedState := WifiState.WIFI_ERROR }) ∧
    (∀ upd : WifiState → WifiState → WifiState,
      (checkBootButton upd
        { bootButtonPressed := true, bootButtonPressTime := 100,
          currentState := WifiState.WIFI_ERROR,
          lastDisplayedState := WifiState.WIFI_ERROR }
        { digitalRead0 := PinLevel.HIGH, millisAtPress := 1600,
          millisAtCheck := 1600 }).globals.lastDisplayedState =
        upd WifiState.WIFI_ERROR WifiState.WIFI_ERROR) ∧
    (checkBootButton (fun _ last => last)
        { bootButtonPressed := true, bootButtonPressTime := 100,
          currentState := WifiState.WIFI_ERROR,
          lastDisplayedState := WifiState.WIFI_ERROR }
        { digitalRead0 := PinLevel.HIGH, millisAtPress := 1600,
          millisAtCheck := 1600 }).globals.lastDisplayedState =
      WifiState.WIFI_ERROR := by
  refine ⟨fun upd => ?_, fun upd => ?_, ?_⟩
  · rfl
  · rfl
  · decide

/-- C6, evaluated at `currentState = WIFI_ERROR` with a redraw pending
(`lastDisplayedState = WIFI_CONNECTED`): the press edge sets `bootButtonPressed`,
records the press time 100 and draws the prompt without `resetSettings` or
`restart`, but the value it writes to `lastDisplayedState` is `WIFI_ERROR`, equal
to `currentState`: before the poll the two differ, after it they are equal, so
`lastDisplayedState` is not invalidated. -/
theorem press_edge_in_error_state_does_not_invalidate :
    ∀ upd : WifiState → WifiState → WifiState,
      checkBootButton upd
          { bootButtonPressed := false, bootButtonPressTime := 0,
            currentState := WifiState.WIFI_ERROR,
            lastDisplayedState := WifiState.WIFI_CONNECTED }
          { digitalRead0 := PinLevel.LOW, millisAtPress := 100, millisAtCheck := 100 } =
        { globals :=
            { bootButtonPressed := true, bootButtonPressTime := 100,
              currentState := WifiState.WIFI_ERROR,
              lastDisplayedState := WifiState.WIFI_ERROR },
          effects :=
            [Effect.clearLCD,
             Effect.printLCD 10 100 "Hold for 3 seconds" TFT_YELLOW 2,
             Effect.printLCD 10 125 "to reset WiFi" TFT_YELLOW 2],
          restarted := false } ∧
      (checkBootButton upd
          { bootButtonPressed := false, bootButtonPressTime := 0,
            currentState := WifiState.WIFI_ERROR,
            lastDisplayedState := WifiState.WIFI_CONNECTED }
          { digitalRead0 := PinLevel.LOW, millisAtPress := 100,
            millisAtCheck := 100 }).globals.lastDisplayedState =
        (checkBootButton upd
          { bootButtonPressed := false, bootButtonPressTime := 0,
            currentState := WifiState.WIFI_ERROR,
            lastDisplayedState := WifiState.WIFI_CONNECTED }
          { digitalRead0 := PinLevel.LOW, millisAtPress := 100,
            millisAtCheck := 100 }).globals.currentState := by
  intro upd
  exact ⟨rfl, rfl⟩

theorem run_nil (upd : WifiState → WifiState → WifiState) (g : Globals) :
    run upd g [] = { globals := g, trace := [], restarted := false } := rfl

theorem run_cons_restart (upd : WifiState → WifiState → WifiState) (g : Globals)
    (i : PollIn) (rest : List PollIn) (h : (checkBootButton upd g i).restarted = true) :
    run upd g (i :: rest) =
      { globals := (checkBootButton upd g i).globals,
        trace := [(checkBootButton upd g i).effects], restarted := true } := by
  simp [run, h]

theorem run_cons_continue (upd : WifiState → WifiState → WifiState) (g : Globals)
    (i : PollIn) (rest : List PollIn) (h : (checkBootButton upd g i).restarted = false) :
    run upd g (i :: rest) =
      { globals := (run upd (checkBootButton upd g i).globals rest).globals,
        trace := (checkBootButton upd g i).effects ::
          (run upd (checkBootButton upd g i).globals rest).trace,
        restarted := (run upd (checkBootButton upd g i).globals rest).restarted } := by
  simp [run, h]

/-- Polls after a restart are not executed. -/
theorem run_append_of_restarted (upd : WifiState → WifiState → WifiState) (g : Globals)
    (a b : List PollIn) (h : (run upd g a).restarted = true) :
    run upd g (a ++ b) = run upd g a := by
  induction a generalizing g with
  | nil => simp [run] at h
  | cons i rest ih =>
    by_cases hr : (checkBootButton upd g i).restarted = true
    · rw [List.cons_append, run_cons_restart upd g i _ hr, run_cons_restart upd g i _ hr]
    · have hr2 : (checkBootButton upd g i).restarted = false := by simpa using hr
      rw [run_cons_continue upd g i rest hr2] at h
      rw [List.cons_append, run_cons_continue upd g i _ hr2, run_cons_continue upd g i _ hr2,
        ih _ h]

/-- A sequence that did not restart is continued from the globals it reached. -/
theorem run_append_of_running (upd : WifiState → WifiState → WifiState) (g : Globals)
    (a b : List PollIn) (h : (run upd g a).restarted = false) :
    run upd g (a ++ b) =
      { globals := (run upd (run upd g a).globals b).globals,
        trace := (run upd g a).trace ++ (run upd (run upd g a).globals b).trace,
        restarted := (run upd (run upd g a).globals b).restarted } := by
  induction a generalizing g with
  | nil => simp [run]
  | cons i rest ih =>
    by_cases hr : (checkBootButton upd g i).restarted = true
    · rw [run_cons_restart upd g i _ hr] at h
      simp at h
    · have hr2 : (checkBootButton upd g i).restarted = false := by simpa using hr
      rw [run_cons_continue upd g i rest hr2] at h
      rw [List.cons_append, run_cons_continue upd g i _ hr2, ih _ h,
        run_cons_continue upd g i rest hr2]
      simp

theorem run_singleton (upd : WifiState → WifiState → WifiState) (g : Globals) (i : PollIn) :
    run upd g [i] =
      { globals := (checkBootButton upd g i).globals,
        trace := [(checkBootButton upd g i).effects],
        restarted := (checkBootButton upd g i).restarted } := by
  by_cases hr : (checkBootButton upd g i).restarted = true
  · rw [run_cons_restart upd g i _ hr, hr]
  · have hr2 : (checkBootButton upd g i).restarted = false := by simpa using hr
    rw [run_cons_continue upd g i _ hr2, hr2]
    simp [run]

theorem run_concat (upd : WifiState → WifiState → WifiState) (g : Globals)
    (ps : List PollIn) (p : PollIn) (h : (run upd g ps).restarted = false) :
    run upd g (ps ++ [p]) =
      { globals := (checkBootButton upd (run upd g ps).globals p).globals,
        trace := (run upd g ps).trace ++ [(checkBootButton upd (run upd g ps).globals p).effects],
        restarted := (checkBootButton upd (run upd g ps).globals p).restarted } := by
  rw [run_append_of_running upd g ps [p] h, run_singleton]

/-- While the button stays down and the threshold is not reached, polls in
PRESSED_WAITING change nothing and emit nothing. -/
theorem run_waiting (upd : WifiState → WifiState → WifiState) (g : Globals)
    (ps : List PollIn) (hp : g.bootButtonPressed = true)
    (hps : ∀ i ∈ ps, i.digitalRead0 = PinLevel.LOW ∧
      ulSub i.millisAtCheck g.bootButtonPressTime < 3000) :
    run upd g ps =
      { globals := g, trace := List.replicate ps.length [], restarted := false } := by
  induction ps with
  | nil => rfl
  | cons i rest ih =>
    have hi := hps i (List.mem_cons_self i rest)
    have hpoll : checkBootButton upd g i =
        { globals := g, effects := [], restarted := false } := by
      rw [poll_low_pressed upd g i hi.1 hp, if_neg (by omega)]
    rw [run_cons_continue upd g i rest (by rw [hpoll]), hpoll]
    simp only
    rw [ih (fun j hj => hps j (List.mem_cons_of_mem i hj))]
    simp [List.replicate_succ]

theorem promptEffects_quiet :
    Effect.resetSettings ∉ promptEffects ∧ Effect.restart ∉ promptEffects ∧
      ∀ ms, Effect.delay ms ∉ promptEffects := by
  simp [promptEffects]

theorem replicate_nil_quiet (n : Nat) (es : List Effect)
    (h : es ∈ List.replicate n ([] : List Effect)) (e : Effect) : e ∉ es := by
  rw [(List.mem_replicate.mp h).2]
  exact List.not_mem_nil e

/-- C1: starting in IDLE, with the pin active at every poll and a 32-bit clock
that does not run backwards from the press edge at `t0` (every reading is at
least `t0`), no poll whose reading is less than 3000 ms after `t0` calls
`resetSettings` or `restart`, and the first poll whose reading is at least
3000 ms after `t0` (3000 exactly included) makes exactly one `resetSettings`
call and exactly one `restart` call; it is the last executed poll, whatever
polls were scheduled after it. -/
theorem hold_three_seconds_resets_once (upd : WifiState → WifiState → WifiState)
    (g0 : Globals) (pre : List PollIn) (pk : PollIn) (post : List PollIn)
    (hidle : g0.bootButtonPressed = false)
    (hlow : ∀ i ∈ pre ++ [pk], i.digitalRead0 = PinLevel.LOW)
    (hclock : ∀ i ∈ pre ++ [pk],
      (pre.headD pk).millisAtPress ≤ i.millisAtCheck ∧ i.millisAtCheck < 4294967296)
    (hbefore : ∀ i ∈ pre, i.millisAtCheck - (pre.headD pk).millisAtPress < 3000)
    (hk : 3000 ≤ pk.millisAtCheck - (pre.headD pk).millisAtPress) :
    (run upd g0 (pre ++ pk :: post)).restarted = true ∧
      ∃ before last,
        (run upd g0 (pre ++ pk :: post)).trace = before ++ [last] ∧
        before.length = pre.length ∧
        (∀ es ∈ before, Effect.resetSettings ∉ es ∧ Effect.restart ∉ es) ∧
        last.count Effect.resetSettings = 1 ∧
        last.count Effect.restart = 1 := by
  cases pre with
  | nil =>
    have hpk := hclock pk (by simp)
    simp only [List.headD_nil] at hk hpk
    have hel : 3000 ≤ ulSub pk.millisAtCheck pk.millisAtPress := by
      rw [ulSub_of_le hpk.1 hpk.2]; exact hk
    have hpoll := poll_low_idle upd g0 pk (hlow pk (by simp)) hidle
    rw [if_pos hel] at hpoll
    rw [List.nil_append, run_cons_restart upd g0 pk post (by rw [hpoll]), hpoll]
    refine ⟨rfl, [], promptEffects ++ resetEffects, rfl, rfl, ?_, ?_, ?_⟩
    · intro es hes
      exact absurd hes (List.not_mem_nil es)
    · decide
    · decide
  | cons p0 rest =>
    simp only [List.headD_cons] at hclock hbefore hk
    have h0 := hclock p0 (by simp)
    have hel0 : ¬ 3000 ≤ ulSub p0.millisAtCheck p0.millisAtPress := by
      rw [ulSub_of_le h0.1 h0.2]
      have := hbefore p0 (by simp)
      omega
    have hpoll := poll_low_idle upd g0 p0 (hlow p0 (by simp)) hidle
    rw [if_neg hel0] at hpoll
    have hwait := run_waiting upd
      { g0 with bootButtonPressed := true
                bootButtonPressTime := p0.millisAtPress
                lastDisplayedState := WifiState.WIFI_ERROR } rest rfl
      (fun i hi => by
        have hc := hclock i (by simp [hi])
        have hb := hbefore i (by simp [hi])
        refine ⟨hlow i (by simp [hi]), ?_⟩
        show ulSub i.millisAtCheck p0.millisAtPress < 3000
        rw [ulSub_of_le hc.1 hc.2]
        exact hb)
    have hck := hclock pk (by simp)
    have hlast := poll_low_pressed upd
      { g0 with bootButtonPressed := true
                bootButtonPressTime := p0.millisAtPress
                lastDisplayedState := WifiState.WIFI_ERROR } pk (hlow pk (by simp)) rfl
    rw [if_pos (by
      show 3000 ≤ ulSub pk.millisAtCheck p0.millisAtPress
      rw [ulSub_of_le hck.1 hck.2]; exact hk)] at hlast
    rw [List.cons_append, run_cons_continue upd g0 p0 _ (by rw [hpoll]), hpoll]
    simp only
    rw [run_append_of_running upd _ rest (pk :: post) (by rw [hwait]), hwait]
    simp only
    rw [run_cons_restart upd _ pk post (by rw [hlast]), hlast]
    refine ⟨rfl, promptEffects :: List.replicate rest.length [], resetEffects, ?_, ?_, ?_, ?_, ?_⟩
    · simp
    · simp
    · intro es hes
      rcases List.mem_cons.mp hes with h | h
      · rw [h]
        exact ⟨promptEffects_quiet.1, promptEffects_quiet.2.1⟩
      · exact ⟨replicate_nil_quiet _ es h _, replicate_nil_quiet _ es h _⟩
    · decide
    · decide

/-- C2: starting in IDLE, one or more polls with the pin active whose clock
readings all lie less than 3000 ms after the reading of the press edge (on the
32-bit counter, so a press that straddles the wrap of the counter is included),
followed by a poll with the pin inactive: every poll is executed, none calls
`resetSettings`, `delay` or `restart`, and the sequence ends in IDLE. -/
theorem short_press_never_resets (upd : WifiState → WifiState → WifiState)
    (g0 : Globals) (p0 : PollIn) (mid : List PollIn) (pr : PollIn)
    (hidle : g0.bootButtonPressed = false)
    (hlow : ∀ i ∈ p0 :: mid, i.digitalRead0 = PinLevel.LOW)
    (hhigh : pr.digitalRead0 = PinLevel.HIGH)
    (hshort : ∀ i ∈ p0 :: mid, ulSub i.millisAtCheck p0.millisAtPress < 3000) :
    (run upd g0 (p0 :: mid ++ [pr])).restarted = false ∧
      (run upd g0 (p0 :: mid ++ [pr])).trace.length = mid.length + 2 ∧
      (run upd g0 (p0 :: mid ++ [pr])).globals.bootButtonPressed = false ∧
      ∀ es ∈ (run upd g0 (p0 :: mid ++ [pr])).trace,
        Effect.resetSettings ∉ es ∧ Effect.restart ∉ es ∧ ∀ ms, Effect.delay ms ∉ es := by
  have hel0 : ¬ 3000 ≤ ulSub p0.millisAtCheck p0.millisAtPress := by
    have := hshort p0 (by simp)
    omega
  have hpoll := poll_low_idle upd g0 p0 (hlow p0 (by simp)) hidle
  rw [if_neg hel0] at hpoll
  have hwait := run_waiting upd
    { g0 with bootButtonPressed := true
              bootButtonPressTime := p0.millisAtPress
              lastDisplayedState := WifiState.WIFI_ERROR } mid rfl
    (fun i hi => ⟨hlow i (by simp [hi]), hshort i (by simp [hi])⟩)
  have hrel := poll_high_pressed upd
    { g0 with bootButtonPressed := true
              bootButtonPressTime := p0.millisAtPress
              lastDisplayedState := WifiState.WIFI_ERROR } pr (by rw [hhigh]; decide) rfl
  rw [List.cons_append, run_cons_continue upd g0 p0 _ (by rw [hpoll]), hpoll]
  simp only
  rw [run_concat upd _ mid pr (by rw [hwait]), hwait]
  simp only
  rw [hrel]
  refine ⟨rfl, by simp, rfl, ?_⟩
  intro es hes
  rcases List.mem_cons.mp hes with h | h
  · rw [h]
    exact promptEffects_quiet
  · rcases List.mem_append.mp h with h | h
    · exact ⟨replicate_nil_quiet _ es h _, replicate_nil_quiet _ es h _,
        fun ms => replicate_nil_quiet _ es h _⟩
    · rw [List.mem_singleton.mp h]
      simp

/-! ## The press-start timestamp along a sequence of polls -/

theorem currentRun_concat_low (ps : List PollIn) (p : PollIn)
    (h : p.digitalRead0 = PinLevel.LOW) : currentRun (ps ++ [p]) = currentRun ps ++ [p] := by
  unfold currentRun
  rw [List.rtakeWhile_concat_pos]
  simpa using h

theorem currentRun_concat_high (ps : List PollIn) (p : PollIn)
    (h : p.digitalRead0 ≠ PinLevel.LOW) : currentRun (ps ++ [p]) = [] := by
  unfold currentRun
  rw [List.rtakeWhile_concat_neg]
  simpa using h

theorem currentRun_all_low (ps : List PollIn) :
    ∀ i ∈ currentRun ps, i.digitalRead0 = PinLevel.LOW := by
  intro i hi
  have := List.mem_rtakeWhile_imp hi
  simpa using this

/-- Invariant of the loop, starting in IDLE: the button is recorded as pressed
exactly when the sequence ends in a non-empty run of active polls, and then the
recorded press time is the reading taken at the first poll of that run. -/
theorem run_invariant (upd : WifiState → WifiState → WifiState) (g0 : Globals)
    (hidle : g0.bootButtonPressed = false) (ps : List PollIn)
    (hrun : (run upd g0 ps).restarted = false) :
    ((run upd g0 ps).globals.bootButtonPressed = true ↔ currentRun ps ≠ []) ∧
      ∀ first, (currentRun ps).head? = some first →
        (run upd g0 ps).globals.bootButtonPressTime = first.millisAtPress := by
  induction ps using List.reverseRecOn with
  | nil => simp [run, currentRun, hidle]
  | append_singleton ps p ih =>
    have hps : (run upd g0 ps).restarted = false := by
      by_contra hc
      have hc2 : (run upd g0 ps).restarted = true := by simpa using hc
      rw [run_append_of_restarted upd g0 ps [p] hc2, hc2] at hrun
      exact Bool.noConfusion hrun
    have ih2 := ih hps
    rw [run_concat upd g0 ps p hps] at hrun ⊢
    simp only at hrun ⊢
    by_cases hlow : p.digitalRead0 = PinLevel.LOW
    · rw [currentRun_concat_low ps p hlow]
      by_cases hp : (run upd g0 ps).globals.bootButtonPressed = true
      · have hne : currentRun ps ≠ [] := ih2.1.mp hp
        rw [poll_low_pressed upd _ p hlow hp] at hrun ⊢
        by_cases hel : 3000 ≤ ulSub p.millisAtCheck (run upd g0 ps).globals.bootButtonPressTime
        · rw [if_pos hel] at hrun
          exact Bool.noConfusion hrun
        · rw [if_neg hel]
          refine ⟨by simp [hp], fun first hf => ?_⟩
          rw [List.head?_append_of_ne_nil _ hne] at hf
          exact ih2.2 first hf
      · have hp2 : (run upd g0 ps).globals.bootButtonPressed = false := by simpa using hp
        have hnil : currentRun ps = [] := by
          by_contra hc
          exact hp (ih2.1.mpr hc)
        rw [poll_low_idle upd _ p hlow hp2] at hrun ⊢
        by_cases hel : 3000 ≤ ulSub p.millisAtCheck p.millisAtPress
        · rw [if_pos hel] at hrun
          exact Bool.noConfusion hrun
        · rw [if_neg hel, hnil]
          refine ⟨by simp, fun first hf => ?_⟩
          simp only [List.nil_append, List.head?_cons, Option.some.injEq] at hf
          rw [← hf]
    · rw [currentRun_concat_high ps p hlow]
      by_cases hp : (run upd g0 ps).globals.bootButtonPressed = true
      · rw [poll_high_pressed upd _ p hlow hp]
        simp
      · have hp2 : (run upd g0 ps).globals.bootButtonPressed = false := by simpa using hp
        rw [poll_high_idle upd _ p hlow hp2]
        simp [hp2]

/-- A poll restarts only at the end of an unbroken run of active polls, and the
elapsed time it measures is taken from the first poll of that run. -/
theorem restart_only_after_long_run (upd : WifiState → WifiState → WifiState) (g0 : Globals)
    (hidle : g0.bootButtonPressed = false) (ps : List PollIn) (p : PollIn)
    (hrun : (run upd g0 ps).restarted = false)
    (hreset : (run upd g0 (ps ++ [p])).restarted = true) :
    ∃ first, (currentRun (ps ++ [p])).head? = some first ∧
      p ∈ currentRun (ps ++ [p]) ∧
      3000 ≤ ulSub p.millisAtCheck first.millisAtPress := by
  have inv := run_invariant upd g0 hidle ps hrun
  rw [run_concat upd g0 ps p hrun] at hreset
  simp only at hreset
  by_cases hlow : p.digitalRead0 = PinLevel.LOW
  · rw [currentRun_concat_low ps p hlow]
    by_cases hp : (run upd g0 ps).globals.bootButtonPressed = true
    · have hne : currentRun ps ≠ [] := inv.1.mp hp
      obtain ⟨first, rest, hfr⟩ := List.exists_cons_of_ne_nil hne
      have hfirst : (currentRun ps).head? = some first := by rw [hfr]; rfl
      rw [poll_low_pressed upd _ p hlow hp, inv.2 first hfirst] at hreset
      by_cases hel : 3000 ≤ ulSub p.millisAtCheck first.millisAtPress
      · refine ⟨first, ?_, by simp, hel⟩
        rw [List.head?_append_of_ne_nil _ hne, hfirst]
      · rw [if_neg hel] at hreset
        exact Bool.noConfusion hreset
    · have hp2 : (run upd g0 ps).globals.bootButtonPressed = false := by simpa using hp
      have hnil : currentRun ps = [] := by
        by_contra hc
        exact hp (inv.1.mpr hc)
      rw [poll_low_idle upd _ p hlow hp2] at hreset
      by_cases hel : 3000 ≤ ulSub p.millisAtCheck p.millisAtPress
      · exact ⟨p, by rw [hnil]; rfl, by simp, hel⟩
      · rw [if_neg hel] at hreset
        exact Bool.noConfusion hreset
  · by_cases hp : (run upd g0 ps).globals.bootButtonPressed = true
    · rw [poll_high_pressed upd _ p hlow hp] at hreset
      exact Bool.noConfusion hreset
    · have hp2 : (run upd g0 ps).globals.bootButtonPressed = false := by simpa using hp
      rw [poll_high_idle upd _ p hlow hp2] at hreset
      exact Bool.noConfusion hreset

/-- When every active poll measures less than 3000 ms from the first poll of its
own run, the loop never restarts, however many runs there are. -/
theorem brief_runs_never_restart (upd : WifiState → WifiState → WifiState) (g0 : Globals)
    (hidle : g0.bootButtonPressed = false) (ps : List PollIn)
    (hbrief : ∀ a p b, ps = a ++ p :: b → ∀ first,
      (currentRun (a ++ [p])).head? = some first →
        ulSub p.millisAtCheck first.millisAtPress < 3000) :
    (run upd g0 ps).restarted = false := by
  induction ps using List.reverseRecOn with
  | nil => rfl
  | append_singleton ps p ih =>
    have hps : (run upd g0 ps).restarted = false := by
      apply ih
      intro a q b hsplit first hf
      exact hbrief a q (b ++ [p]) (by rw [hsplit]; simp) first hf
    by_contra hc
    have hc2 : (run upd g0 (ps ++ [p])).restarted = true := by simpa using hc
    obtain ⟨first, hf, _, hel⟩ := restart_only_after_long_run upd g0 hidle ps p hps hc2
    have := hbrief ps p [] rfl first hf
    omega

theorem poll_quiet_of_running (upd : WifiState → WifiState → WifiState) (g : Globals)
    (i : PollIn) (h : (checkBootButton upd g i).restarted = false) :
    Effect.resetSettings ∉ (checkBootButton upd g i).effects ∧
      Effect.restart ∉ (checkBootButton upd g i).effects := by
  by_cases hlow : i.digitalRead0 = PinLevel.LOW
  · by_cases hp : g.bootButtonPressed = true
    · rw [poll_low_pressed upd g i hlow hp] at h ⊢
      by_cases hel : 3000 ≤ ulSub i.millisAtCheck g.bootButtonPressTime
      · rw [if_pos hel] at h
        exact Bool.noConfusion h
      · rw [if_neg hel]
        simp
    · have hp2 : g.bootButtonPressed = false := by simpa using hp
      rw [poll_low_idle upd g i hlow hp2] at h ⊢
      by_cases hel : 3000 ≤ ulSub i.millisAtCheck i.millisAtPress
      · rw [if_pos hel] at h
        exact Bool.noConfusion h
      · rw [if_neg hel]
        exact ⟨promptEffects_quiet.1, promptEffects_quiet.2.1⟩
  · by_cases hp : g.bootButtonPressed = true
    · rw [poll_high_pressed upd g i hlow hp]
      simp
    · have hp2 : g.bootButtonPressed = false := by simpa using hp
      rw [poll_high_idle upd g i hlow hp2]
      simp

theorem run_quiet_of_running (upd : WifiState → WifiState → WifiState) (g : Globals)
    (ps : List PollIn) (h : (run upd g ps).restarted = false) :
    ∀ es ∈ (run upd g ps).trace, Effect.resetSettings ∉ es ∧ Effect.restart ∉ es := by
  induction ps generalizing g with
  | nil => simp [run]
  | cons i rest ih =>
    by_cases hr : (checkBootButton upd g i).restarted = true
    · rw [run_cons_restart upd g i rest hr] at h
      exact Bool.noConfusion h
    · have hr2 : (checkBootButton upd g i).restarted = false := by simpa using hr
      rw [run_cons_continue upd g i rest hr2] at h ⊢
      intro es hes
      rcases List.mem_cons.mp hes with he | he
      · rw [he]
        exact poll_quiet_of_running upd g i hr2
      · exact ih _ h es he

/-- C4: hold duration is measured from a stable press-start timestamp over an
unbroken active run. Starting in IDLE, (1) in every state the loop reaches,
`bootButtonPressed` holds exactly when the polls so far end in a non-empty
unbroken run of active polls, and `bootButtonPressTime` is then the reading
taken at the first poll of that run; (2) a poll restarts the device only if it
closes an unbroken run of active polls and its reading is at least 3000 ms
(modulo `2^32`; as plain numbers when the 32-bit clock did not wrap) after the
reading taken at the first poll of that run; (3) if every active poll reads less
than 3000 ms after the start of its own run, no poll calls `resetSettings` or
`restart`, however many such runs there are. -/
theorem press_time_is_start_of_current_run (upd : WifiState → WifiState → WifiState)
    (g0 : Globals) (hidle : g0.bootButtonPressed = false) :
    (∀ ps, (run upd g0 ps).restarted = false →
      ((run upd g0 ps).globals.bootButtonPressed = true ↔ currentRun ps ≠ []) ∧
      ∀ first, (currentRun ps).head? = some first →
        (run upd g0 ps).globals.bootButtonPressTime = first.millisAtPress) ∧
    (∀ ps p, (run upd g0 ps).restarted = false →
      (run upd g0 (ps ++ [p])).restarted = true →
      ∃ first, (currentRun (ps ++ [p])).head? = some first ∧
        p ∈ currentRun (ps ++ [p]) ∧
        (∀ i ∈ currentRun (ps ++ [p]), i.digitalRead0 = PinLevel.LOW) ∧
        3000 ≤ ulSub p.millisAtCheck first.millisAtPress ∧
        (first.millisAtPress ≤ p.millisAtCheck → p.millisAtCheck < 4294967296 →
          first.millisAtPress + 3000 ≤ p.millisAtCheck)) ∧
    (∀ ps,
      (∀ a p b, ps = a ++ p :: b → ∀ first,
        (currentRun (a ++ [p])).head? = some first →
          ulSub p.millisAtCheck first.millisAtPress < 3000) →
      (run upd g0 ps).restarted = false ∧
      ∀ es ∈ (run upd g0 ps).trace, Effect.resetSettings ∉ es ∧ Effect.restart ∉ es) := by
  refine ⟨fun ps hrun => run_invariant upd g0 hidle ps hrun, fun ps p hrun hreset => ?_,
    fun ps hbrief => ?_⟩
  · obtain ⟨first, hf, hmem, hel⟩ := restart_only_after_long_run upd g0 hidle ps p hrun hreset
    refine ⟨first, hf, hmem, currentRun_all_low _, hel, fun hle hlt => ?_⟩
    rw [ulSub_of_le hle hlt] at hel
    omega
  · have hrun := brief_runs_never_restart upd g0 hidle ps hbrief
    exact ⟨hrun, run_quiet_of_running upd g0 ps hrun⟩

theorem press_time_is_start_of_current_run_witness :
    (run updateLCD
        { bootButtonPressed := false, bootButtonPressTime := 0,
          currentState := WifiState.WIFI_CONNECTED,
          lastDisplayedState := WifiState.WIFI_CONNECTED }
        [{ digitalRead0 := PinLevel.LOW, millisAtPress := 0, millisAtCheck := 0 },
         { digitalRead0 := PinLevel.LOW, millisAtPress := 1900, millisAtCheck := 1900 },
         { digitalRead0 := PinLevel.HIGH, millisAtPress := 1950, millisAtCheck := 1950 },
         { digitalRead0 := PinLevel.LOW, millisAtPress := 2000, millisAtCheck := 2000 },
         { digitalRead0 := PinLevel.LOW, millisAtPress := 4500,
           millisAtCheck := 4500 }]).globals.bootButtonPressTime = 2000 :=
  ((press_time_is_start_of_current_run updateLCD
      { bootButtonPressed := false, bootButtonPressTime := 0,
        currentState := WifiState.WIFI_CONNECTED,
        lastDisplayedState := WifiState.WIFI_CONNECTED } rfl).1
    [{ digitalRead0 := PinLevel.LOW, millisAtPress := 0, millisAtCheck := 0 },
     { digitalRead0 := PinLevel.LOW, millisAtPress := 1900, millisAtCheck := 1900 },
     { digitalRead0 := PinLevel.HIGH, millisAtPress := 1950, millisAtCheck := 1950 },
     { digitalRead0 := PinLevel.LOW, millisAtPress := 2000, millisAtCheck := 2000 },
     { digitalRead0 := PinLevel.LOW, millisAtPress := 4500, millisAtCheck := 4500 }]
    (by decide)).2
    { digitalRead0 := PinLevel.LOW, millisAtPress := 2000, millisAtCheck := 2000 } (by decide)

theorem hold_three_seconds_resets_once_witness :
    (run updateLCD
        { bootButtonPressed := false, bootButtonPressTime := 0,
          currentState := WifiState.WIFI_CONNECTED,
          lastDisplayedState := WifiState.WIFI_CONNECTED }
        ([{ digitalRead0 := PinLevel.LOW, millisAtPress := 0, millisAtCheck := 0 },
          { digitalRead0 := PinLevel.LOW, millisAtPress := 1500, millisAtCheck := 1500 }] ++
          { digitalRead0 := PinLevel.LOW, millisAtPress := 3000, millisAtCheck := 3000 } ::
          [{ digitalRead0 := PinLevel.LOW, millisAtPress := 3010,
             millisAtCheck := 3010 }])).restarted = true :=
  (hold_three_seconds_resets_once updateLCD
    { bootButtonPressed := false, bootButtonPressTime := 0,
      currentState := WifiState.WIFI_CONNECTED,
      lastDisplayedState := WifiState.WIFI_CONNECTED }
    [{ digitalRead0 := PinLevel.LOW, millisAtPress := 0, millisAtCheck := 0 },
     { digitalRead0 := PinLevel.LOW, millisAtPress := 1500, millisAtCheck := 1500 }]
    { digitalRead0 := PinLevel.LOW, millisAtPress := 3000, millisAtCheck := 3000 }
    [{ digitalRead0 := PinLevel.LOW, millisAtPress := 3010, millisAtCheck := 3010 }]
    rfl (by decide) (by decide) (by decide) (by decide)).1

theorem short_press_never_resets_witness :
    (run updateLCD
        { bootButtonPressed := false, bootButtonPressTime := 0,
          currentState := WifiState.WIFI_CONNECTED,
          lastDisplayedState := WifiState.WIFI_CONNECTED }
        ({ digitalRead0 := PinLevel.LOW, millisAtPress := 4294967000,
           millisAtCheck := 4294967000 } ::
          [{ digitalRead0 := PinLevel.LOW, millisAtPress := 200, millisAtCheck := 200 }] ++
          [{ digitalRead0 := PinLevel.HIGH, millisAtPress := 300,
             millisAtCheck := 300 }])).restarted = false :=
  (short_press_never_resets updateLCD
    { bootButtonPressed := false, bootButtonPressTime := 0,
      currentState := WifiState.WIFI_CONNECTED,
      lastDisplayedState := WifiState.WIFI_CONNECTED }
    { digitalRead0 := PinLevel.LOW, millisAtPress := 4294967000, millisAtCheck := 4294967000 }
    [{ digitalRead0 := PinLevel.LOW, millisAtPress := 200, millisAtCheck := 200 }]
    { digitalRead0 := PinLevel.HIGH, millisAtPress := 300, millisAtCheck := 300 }
    rfl (by decide) rfl (by decide)).1

end ButtonHandler
